import Mathlib

/-!
Verification of the buffering/dispatch engine of the souphttpsink element
(ext/soup/gstsouphttpsink.c).

The engine state is shallowly embedded as the structure `SinkState`, whose
fields mirror the fields of the C struct that the core engine reads and
writes: `location`, `streamheader_buffers`, `queued_buffers`, `sent_buffers`,
`message` (the in-flight request slot), `offset` (guint64, hence arithmetic
modulo 2^64), `status_code` and `reason_phrase` (the error latch).  Two
history fields are added that the C program keeps implicitly in its
environment: `pending`, the number of idle dispatch sources currently
attached to the main context (render attaches one on the empty-to-non-empty
queue transition), and `submitted`, the ordered log of requests handed to
`soup_session_queue_message`, i.e. to the Transport.

Buffers (`Chunk`) carry their byte contents and the GST_BUFFER_FLAG_IN_CAPS
flag; GST_BUFFER_SIZE is the length of the byte list, and GST_BUFFER_DATA is
the byte list itself, so appending a buffer to a request body and adding its
size to the running total `n` is modelled by list append and list length.

Each C function of the core engine is translated into a pure function on
`SinkState`; the producer thread and the transport event thread are modelled
by the interleaving of `Event`s fed to the `step` function.
-/

/-- One GstBuffer: its byte contents and its GST_BUFFER_FLAG_IN_CAPS flag. -/
structure Chunk where
  data : List Nat
  in_caps : Bool
deriving DecidableEq

/-- One request handed to the Transport: its accumulated body bytes and the
optional Content-Range header attached to it. -/
structure Request where
  body : List Nat
  contentRange : Option String
deriving DecidableEq

/-- Result codes of the render vmethod (GST_FLOW_OK / GST_FLOW_ERROR). -/
inductive GstFlowReturn where
  | ok
  | error
deriving DecidableEq

/-- The engine state: the fields of GstSoupHttpSink used by the core engine,
plus the two history fields `pending` and `submitted` described above. -/
structure SinkState where
  location : Option String
  streamheader_buffers : List Chunk
  queued_buffers : List Chunk
  sent_buffers : List Chunk
  message : Option Request
  offset : Nat
  status_code : Nat
  reason_phrase : Option String
  pending : Nat
  submitted : List Request
deriving DecidableEq

/-- SOUP_STATUS_IS_SUCCESSFUL: 200 <= status < 300. -/
def statusIsSuccessful (st : Nat) : Bool :=
  Nat.ble 200 st && Nat.blt st 300

/-- Concatenation of the bytes of a list of buffers. -/
def bytesOf : List Chunk → List Nat
  | [] => []
  | c :: cs => c.data ++ bytesOf cs

/-- Bytes contributed to a request body by a list of queued buffers: buffers
flagged GST_BUFFER_FLAG_IN_CAPS are skipped (gstsouphttpsink.c:549-557). -/
def payloadBytes (l : List Chunk) : List Nat :=
  bytesOf (l.filter (fun c => !c.in_caps))

/-- Concatenation of the bodies of a list of requests. -/
def bodies : List Request → List Nat
  | [] => []
  | r :: rs => r.body ++ bodies rs

/-- The Content-Range header value built by send_message_locked
(gstsouphttpsink.c:559-566): "bytes {offset}-{offset+n-1}/*", with guint64
arithmetic. -/
def contentRangeStr (o n : Nat) : String :=
  "bytes " ++ Nat.repr o ++ "-" ++ Nat.repr ((o + n - 1) % 2 ^ 64) ++ "/*"

/-- The request body built by send_message_locked (gstsouphttpsink.c:538-557):
if offset == 0, every streamheader buffer first, then every queued buffer not
flagged GST_BUFFER_FLAG_IN_CAPS.  Its length is the running byte count n. -/
def requestBody (s : SinkState) : List Nat :=
  (if s.offset = 0 then bytesOf s.streamheader_buffers else []) ++
    payloadBytes s.queued_buffers

/-- The SoupMessage built by send_message_locked: body as above, and a
Content-Range header exactly when offset != 0 (gstsouphttpsink.c:559-566). -/
def buildRequest (s : SinkState) : Request :=
  { body := requestBody s
    contentRange :=
      if s.offset = 0 then none
      else some (contentRangeStr s.offset (requestBody s).length) }

/-- Translation of send_message_locked (gstsouphttpsink.c:517-585).
Returns immediately when nothing is queued or a message is in flight
(line 523); frees all queued buffers when the location went away (527-532);
builds the message body and n (534-557); destroys the message without
sending when n == 0 (568-574); otherwise moves the queued buffers to
sent_buffers, queues the message on the session (the `submitted` log) and
advances offset by n (576-584, guint64 arithmetic). -/
def send_message_locked (s : SinkState) : SinkState :=
  if s.queued_buffers = [] ∨ s.message ≠ none then s
  else if s.location = none then { s with queued_buffers := [] }
  else if (requestBody s).length = 0 then { s with queued_buffers := [] }
  else
    { s with
      message := some (buildRequest s)
      sent_buffers := s.queued_buffers
      queued_buffers := []
      submitted := s.submitted ++ [buildRequest s]
      offset := (s.offset + (requestBody s).length) % 2 ^ 64 }

/-- Translation of callback (gstsouphttpsink.c:597-621): signal the cond,
clear the message slot; on a non-successful status latch (status, reason) and
return; on success free the sent buffers and re-run send_message_locked. -/
def callback (st : Nat) (rsn : String) (s : SinkState) : SinkState :=
  if statusIsSuccessful st = false then
    { s with message := none, status_code := st, reason_phrase := some rsn }
  else
    send_message_locked { s with message := none, sent_buffers := [] }

/-- Result of one render call: the GstFlowReturn, the (status, reason) pair
posted via GST_ELEMENT_ERROR if any, and the state afterwards. -/
structure RenderResult where
  flow : GstFlowReturn
  reported : Option (Nat × Option String)
  state : SinkState
deriving DecidableEq

/-- Translation of gst_soup_http_sink_render (gstsouphttpsink.c:623-656):
if the error latch is set, post the latched status and reason and return
GST_FLOW_ERROR; otherwise, if a location is set, append the buffer to
queued_buffers and, when the queue was empty beforehand, attach an idle
dispatch source; return GST_FLOW_OK either way. -/
def gst_soup_http_sink_render (s : SinkState) (buffer : Chunk) : RenderResult :=
  if s.status_code ≠ 0 then
    { flow := GstFlowReturn.error
      reported := some (s.status_code, s.reason_phrase)
      state := s }
  else if s.location = none then
    { flow := GstFlowReturn.ok, reported := none, state := s }
  else
    { flow := GstFlowReturn.ok
      reported := none
      state :=
        { s with
          queued_buffers := s.queued_buffers ++ [buffer]
          pending :=
            if s.queued_buffers = [] then s.pending + 1 else s.pending } }

/-- Translation of the streamheader branch of gst_soup_http_sink_set_caps
(gstsouphttpsink.c:359-386): the old header list is freed and replaced. -/
def gst_soup_http_sink_set_caps (s : SinkState) (hs : List Chunk) : SinkState :=
  { s with streamheader_buffers := hs }

/-- Translation of gst_soup_http_sink_reset (gstsouphttpsink.c:230-238):
clears only reason_phrase, status_code and offset. -/
def gst_soup_http_sink_reset (s : SinkState) : SinkState :=
  { s with reason_phrase := none, status_code := 0, offset := 0 }

/-- Translation of gst_soup_http_sink_stop (gstsouphttpsink.c:441-467):
aborts the session (cancelling any in-flight message), quits and joins the
event thread (dropping any attached idle sources), then calls reset. -/
def gst_soup_http_sink_stop (s : SinkState) : SinkState :=
  gst_soup_http_sink_reset { s with message := none, pending := 0 }

/-- Events of the two-thread interleaving: a producer push (render), an idle
dispatch source firing on the event thread, a transport completion, a caps
change, a location property change (which also zeroes offset,
gstsouphttpsink.c:254-258), and session stop. -/
inductive Event where
  | push (c : Chunk)
  | runIdle
  | complete (st : Nat) (rsn : String)
  | setCaps (hs : List Chunk)
  | setLocation (l : Option String)
  | stop
deriving DecidableEq

/-- One interleaving step.  An idle source fires only if one is attached; a
completion is delivered only for an in-flight message. -/
def step (s : SinkState) : Event → SinkState
  | Event.push c => (gst_soup_http_sink_render s c).state
  | Event.runIdle =>
      if s.pending = 0 then s
      else send_message_locked { s with pending := s.pending - 1 }
  | Event.complete st rsn =>
      if s.message = none then s else callback st rsn s
  | Event.setCaps hs => gst_soup_http_sink_set_caps s hs
  | Event.setLocation l => { s with location := l, offset := 0 }
  | Event.stop => gst_soup_http_sink_stop s

/-- Run a list of events from a state. -/
def run (s : SinkState) (evs : List Event) : SinkState :=
  evs.foldl step s

/-- The state right after start, with header set `H` and location `loc`. -/
def initState (H : List Chunk) (loc : String) : SinkState :=
  { location := some loc
    streamheader_buffers := H
    queued_buffers := []
    sent_buffers := []
    message := none
    offset := 0
    status_code := 0
    reason_phrase := none
    pending := 0
    submitted := [] }

/-- Translation of the EOS branch of gst_soup_http_sink_event
(gstsouphttpsink.c:477-496): while a message is in flight, wait on the cond
and re-check; return as soon as the message slot is empty.  The list argument
is the (finite) schedule of events the other thread performs between
wake-ups; `none` means the wait never terminates within that schedule. -/
def eosWait : SinkState → List Event → Option SinkState
  | s, [] => if s.message = none then some s else none
  | s, e :: rest =>
      if s.message = none then some s else eosWait (step s e) rest

/-- A sequence of render calls, returning the list of
(GstFlowReturn, reported error) outcomes and the final state. -/
def renderSeq :
    SinkState → List Chunk →
      List (GstFlowReturn × Option (Nat × Option String)) × SinkState
  | s, [] => ([], s)
  | s, b :: bs =>
      let r := gst_soup_http_sink_render s b
      let rest := renderSeq r.state bs
      ((r.flow, r.reported) :: rest.1, rest.2)

/-- The chunks pushed by a list of events, in order. -/
def pushedOf : List Event → List Chunk
  | [] => []
  | Event.push c :: es => c :: pushedOf es
  | _ :: es => pushedOf es

/-- Events of a failure-free session segment: pushes, idle dispatches, and
successful completions only. -/
def goodEvent : Event → Bool
  | Event.push _ => true
  | Event.runIdle => true
  | Event.complete st _ => statusIsSuccessful st
  | _ => false

/-! Helper lemmas about byte concatenations. -/

lemma bytesOf_append (a b : List Chunk) :
    bytesOf (a ++ b) = bytesOf a ++ bytesOf b := by
  induction a with
  | nil => simp [bytesOf]
  | cons c cs ih => simp [bytesOf, ih]

lemma payloadBytes_nil : payloadBytes [] = [] := rfl

lemma payloadBytes_append (a b : List Chunk) :
    payloadBytes (a ++ b) = payloadBytes a ++ payloadBytes b := by
  simp [payloadBytes, List.filter_append, bytesOf_append]

lemma bodies_append (a b : List Request) :
    bodies (a ++ b) = bodies a ++ bodies b := by
  induction a with
  | nil => simp [bodies]
  | cons r rs ih => simp [bodies, ih]

lemma bodies_singleton (r : Request) : bodies [r] = r.body := by
  simp [bodies]

/-- Claim C8: whenever dispatch runs with a non-empty queue, no request in
flight, and the location unset, every queued chunk is dropped, the queue
becomes empty, and no request is handed to the Transport (the state is
otherwise unchanged, so in particular the submitted log is unchanged). -/
theorem lost_target_discard (s : SinkState)
    (hq : s.queued_buffers ≠ []) (hm : s.message = none)
    (hl : s.location = none) :
    send_message_locked s = { s with queued_buffers := [] } := by
  unfold send_message_locked
  rw [if_neg, if_pos hl]
  simp [hq, hm]

/-- Witness for C8: five queued chunks, no in-flight request, location unset;
dispatch empties the queue and submits nothing. -/
theorem lost_target_discard_witness :
    send_message_locked
      { location := none
        streamheader_buffers := []
        queued_buffers :=
          [⟨[1], false⟩, ⟨[2], false⟩, ⟨[3], false⟩, ⟨[4], false⟩,
            ⟨[5], false⟩]
        sent_buffers := []
        message := none
        offset := 0
        status_code := 0
        reason_phrase := none
        pending := 0
        submitted := [] } =
    { location := none
      streamheader_buffers := []
      queued_buffers := []
      sent_buffers := []
      message := none
      offset := 0
      status_code := 0
      reason_phrase := none
      pending := 0
      submitted := [] } :=
  lost_target_discard _ (by decide) (by decide) (by decide)

/-- Claim C10: when no error is latched and the location is unset, render
silently drops the chunk: nothing is queued, no dispatch is scheduled, the
state is unchanged, and GST_FLOW_OK is returned with no error posted. -/
theorem render_without_target_drops (s : SinkState) (b : Chunk)
    (hst : s.status_code = 0) (hl : s.location = none) :
    gst_soup_http_sink_render s b =
      { flow := GstFlowReturn.ok, reported := none, state := s } := by
  unfold gst_soup_http_sink_render
  rw [if_neg (by simp [hst]), if_pos hl]

/-- Witness for C10: a concrete latch-free, location-less state; render
returns GST_FLOW_OK and leaves the state untouched. -/
theorem render_without_target_drops_witness :
    gst_soup_http_sink_render
      { location := none
        streamheader_buffers := []
        queued_buffers := []
        sent_buffers := []
        message := none
        offset := 0
        status_code := 0
        reason_phrase := none
        pending := 0
        submitted := [] } ⟨[9, 9], false⟩ =
    { flow := GstFlowReturn.ok
      reported := none
      state :=
        { location := none
          streamheader_buffers := []
          queued_buffers := []
          sent_buffers := []
          message := none
          offset := 0
          status_code := 0
          reason_phrase := none
          pending := 0
          submitted := [] } } :=
  render_without_target_drops _ _ (by decide) (by decide)

/-- A concrete state with a queued chunk, a captured header set, and a
latched error, used to examine gst_soup_http_sink_stop. -/
def stopDemoState : SinkState :=
  { location := some "u"
    streamheader_buffers := [⟨[1], true⟩]
    queued_buffers := [⟨[2, 3], false⟩]
    sent_buffers := []
    message := none
    offset := 5
    status_code := 7
    reason_phrase := some "e"
    pending := 0
    submitted := [] }

/-- Counterexample to claim C9: after stop, the Queued Chunks and the Header
Set are NOT cleared — gst_soup_http_sink_reset clears only reason_phrase,
status_code and offset, and nothing else in stop frees either list. -/
theorem stop_keeps_buffers_cex :
    (gst_soup_http_sink_stop stopDemoState).queued_buffers ≠ [] ∧
      (gst_soup_http_sink_stop stopDemoState).streamheader_buffers ≠ [] := by
  decide

/-- Claim C9 as amended: after stop, the Stream Offset is 0 and the Error
Latch is unset (status 0, reason cleared), chunks still queued at stop are
not sent (the submitted log is unchanged), but the Queued Chunks and the
Header Set keep exactly the chunks they held before stop. -/
theorem stop_clears_counters_only (s : SinkState) :
    (gst_soup_http_sink_stop s).offset = 0 ∧
      (gst_soup_http_sink_stop s).status_code = 0 ∧
      (gst_soup_http_sink_stop s).reason_phrase = none ∧
      (gst_soup_http_sink_stop s).queued_buffers = s.queued_buffers ∧
      (gst_soup_http_sink_stop s).streamheader_buffers =
        s.streamheader_buffers ∧
      (gst_soup_http_sink_stop s).submitted = s.submitted :=
  ⟨rfl, rfl, rfl, rfl, rfl, rfl⟩

/-- Claim C7: once the error latch holds a non-zero status, every subsequent
render call returns GST_FLOW_ERROR, posts exactly the latched status code and
reason text, and leaves the state unchanged — so nothing is enqueued and
nothing is submitted to the Transport, for any number of subsequent calls. -/
theorem latch_fails_all_renders (s : SinkState) (bufs : List Chunk)
    (h : s.status_code ≠ 0) :
    (renderSeq s bufs).1 =
        bufs.map
          (fun _ => (GstFlowReturn.error, some (s.status_code, s.reason_phrase)))
      ∧ (renderSeq s bufs).2 = s := by
  induction bufs with
  | nil => exact ⟨rfl, rfl⟩
  | cons b bs ih =>
    have hr : gst_soup_http_sink_render s b =
        { flow := GstFlowReturn.error
          reported := some (s.status_code, s.reason_phrase)
          state := s } := by
      unfold gst_soup_http_sink_render
      rw [if_pos h]
    obtain ⟨ih1, ih2⟩ := ih
    refine ⟨?_, ?_⟩
    · simp only [renderSeq, hr, List.map_cons]
      rw [ih1]
    · simp only [renderSeq, hr]
      exact ih2

/-- Witness for C7: a state with latch (404, "Not Found") set; three further
pushes all fail with exactly that error and change nothing. -/
theorem latch_fails_all_renders_witness :
    (renderSeq
        { location := some "u"
          streamheader_buffers := []
          queued_buffers := []
          sent_buffers := []
          message := none
          offset := 9
          status_code := 404
          reason_phrase := some "Not Found"
          pending := 0
          submitted := [] }
        [⟨[1], false⟩, ⟨[2], false⟩, ⟨[3], false⟩]).1 =
      ([⟨[1], false⟩, ⟨[2], false⟩, ⟨[3], false⟩] : List Chunk).map
        (fun _ => (GstFlowReturn.error, some (404, some "Not Found"))) ∧
    (renderSeq
        { location := some "u"
          streamheader_buffers := []
          queued_buffers := []
          sent_buffers := []
          message := none
          offset := 9
          status_code := 404
          reason_phrase := some "Not Found"
          pending := 0
          submitted := [] }
        [⟨[1], false⟩, ⟨[2], false⟩, ⟨[3], false⟩]).2 =
      { location := some "u"
        streamheader_buffers := []
        queued_buffers := []
        sent_buffers := []
        message := none
        offset := 9
        status_code := 404
        reason_phrase := some "Not Found"
        pending := 0
        submitted := [] } :=
  latch_fails_all_renders _ _ (by decide)

/-- A state reached by pushing one chunk right after start: the idle dispatch
source has not fired yet, so the queue is non-empty with no request in
flight. -/
def eosDemoState : SinkState :=
  step (initState [] "u") (Event.push ⟨[1], false⟩)

/-- A state with a request in flight: one chunk pushed and the idle dispatch
source fired. -/
def eosDemoBusy : SinkState :=
  step (step (initState [] "u") (Event.push ⟨[1], false⟩)) Event.runIdle

/-- Counterexample to claim C5: from eosDemoState the EOS handler returns
immediately (the in-flight slot is empty), yet the Queued Chunks queue is
not empty — gst_soup_http_sink_event waits only on the message slot and
never examines queued_buffers. -/
theorem eos_returns_with_queue_cex :
    eosWait eosDemoState [] = some eosDemoState ∧
      eosDemoState.queued_buffers ≠ [] := by
  decide

/-- Claim C5 as amended: the EOS wait loop returns exactly when the in-flight
slot is empty.  Whenever it returns, the state it returns in has no
outstanding request; and if the slot is already empty when EOS is signalled,
it returns at once without waiting for any further event.  It does not
guarantee that the chunk queue is empty. -/
theorem eos_wait_idle :
    (∀ (s : SinkState) (evs : List Event) (sf : SinkState),
        eosWait s evs = some sf → sf.message = none) ∧
      (∀ (s : SinkState) (evs : List Event),
        s.message = none → eosWait s evs = some s) := by
  constructor
  · intro s evs
    induction evs generalizing s with
    | nil =>
      intro sf h
      unfold eosWait at h
      by_cases hm : s.message = none
      · rw [if_pos hm] at h
        injection h with h
        rw [← h]
        exact hm
      · rw [if_neg hm] at h
        simp at h
    | cons e rest ih =>
      intro sf h
      unfold eosWait at h
      by_cases hm : s.message = none
      · rw [if_pos hm] at h
        injection h with h
        rw [← h]
        exact hm
      · rw [if_neg hm] at h
        exact ih _ _ h
  · intro s evs hm
    cases evs with
    | nil =>
      unfold eosWait
      rw [if_pos hm]
    | cons e rest =>
      unfold eosWait
      rw [if_pos hm]

/-- Witness for C5 as amended: with a request in flight, the wait consumes
the completion and returns with the slot empty; with the slot already empty,
it returns at once even though further events are available. -/
theorem eos_wait_idle_witness :
    (step eosDemoBusy (Event.complete 200 "OK")).message = none ∧
      eosWait (initState [] "u") [Event.runIdle] = some (initState [] "u") :=
  ⟨eos_wait_idle.1 eosDemoBusy [Event.complete 200 "OK"] _ (by decide),
    eos_wait_idle.2 (initState [] "u") [Event.runIdle] (by decide)⟩

/-- Case analysis of send_message_locked: it either returns the state
unchanged (nothing queued, or a request already in flight), or merely
empties the queue without submitting (location unset, or the would-be body
empty), or submits exactly one request, built by buildRequest, from a state
whose in-flight slot is empty. -/
lemma send_message_locked_spec (s : SinkState) :
    (send_message_locked s = s ∧ (s.queued_buffers = [] ∨ s.message ≠ none))
    ∨ (send_message_locked s = { s with queued_buffers := [] } ∧
        (s.location = none ∨ (requestBody s).length = 0))
    ∨ (s.message = none ∧ 0 < (requestBody s).length ∧
        send_message_locked s =
          { s with
            message := some (buildRequest s)
            sent_buffers := s.queued_buffers
            queued_buffers := []
            submitted := s.submitted ++ [buildRequest s]
            offset := (s.offset + (requestBody s).length) % 2 ^ 64 }) := by
  unfold send_message_locked
  by_cases h1 : s.queued_buffers = [] ∨ s.message ≠ none
  · left
    rw [if_pos h1]
    exact ⟨rfl, h1⟩
  · rw [if_neg h1]
    by_cases h2 : s.location = none
    · right; left
      rw [if_pos h2]
      exact ⟨rfl, Or.inl h2⟩
    · rw [if_neg h2]
      by_cases h3 : (requestBody s).length = 0
      · right; left
        rw [if_pos h3]
        exact ⟨rfl, Or.inr h3⟩
      · right; right
        rw [if_neg h3]
        push_neg at h1
        exact ⟨h1.2, Nat.pos_of_ne_zero h3, rfl⟩

/-- Claim C2 (single-flight): send_message_locked submits a request only when
the in-flight slot is empty, and the submitted request then occupies the
slot; a successful completion first clears the slot and frees the sent
buffers and only then re-runs the dispatcher; a failed completion clears the
slot and submits nothing, so a second request is never submitted while one
is outstanding. -/
theorem single_flight :
    (∀ (s : SinkState) (r : Request),
        (send_message_locked s).submitted = s.submitted ++ [r] →
        s.message = none ∧ (send_message_locked s).message = some r)
    ∧ (∀ (s : SinkState) (st : Nat) (rsn : String),
        statusIsSuccessful st = true →
        callback st rsn s =
          send_message_locked { s with message := none, sent_buffers := [] })
    ∧ (∀ (s : SinkState) (st : Nat) (rsn : String),
        statusIsSuccessful st = false →
        (callback st rsn s).submitted = s.submitted ∧
          (callback st rsn s).message = none) := by
  refine ⟨?_, ?_, ?_⟩
  · intro s r h
    rcases send_message_locked_spec s with ⟨he, _⟩ | ⟨he, _⟩ | ⟨hm, _, he⟩
    · rw [he] at h
      simp at h
    · rw [he] at h
      simp at h
    · rw [he] at h ⊢
      have hr : buildRequest s = r := by
        have h2 : [buildRequest s] = [r] := by
          exact List.append_cancel_left h
        injection h2
      rw [hr]
      exact ⟨hm, rfl⟩
  · intro s st rsn h
    unfold callback
    rw [if_neg (by simp [h])]
  · intro s st rsn h
    unfold callback
    rw [if_pos h]
    exact ⟨rfl, rfl⟩

/-- A latch-free state with one queued payload chunk at offset 0 and no
request in flight: dispatch from here submits a request. -/
def dispatchDemoState : SinkState :=
  { location := some "u"
    streamheader_buffers := []
    queued_buffers := [⟨[1, 2, 3], false⟩]
    sent_buffers := []
    message := none
    offset := 0
    status_code := 0
    reason_phrase := none
    pending := 0
    submitted := [] }

/-- The state of dispatchDemoState after its dispatch: one request in
flight. -/
def busyDemoState : SinkState :=
  send_message_locked dispatchDemoState

/-- Witness for C2: the dispatch from dispatchDemoState happened with the
slot empty and filled it; a successful completion of busyDemoState goes
through the dispatcher after clearing the slot; a failed completion clears
the slot and submits nothing. -/
theorem single_flight_witness :
    (dispatchDemoState.message = none ∧
      (send_message_locked dispatchDemoState).message =
        some (buildRequest dispatchDemoState)) ∧
    (callback 204 "No Content" busyDemoState =
      send_message_locked
        { busyDemoState with message := none, sent_buffers := [] }) ∧
    ((callback 500 "Internal Server Error" busyDemoState).submitted =
        busyDemoState.submitted ∧
      (callback 500 "Internal Server Error" busyDemoState).message = none) :=
  ⟨single_flight.1 dispatchDemoState (buildRequest dispatchDemoState)
      (by decide),
    single_flight.2.1 busyDemoState 204 "No Content" (by decide),
    single_flight.2.2 busyDemoState 500 "Internal Server Error" (by decide)⟩

/-- Claim C6: every request handed to the Transport has a non-empty body; a
request built at offset 0 carries no Content-Range header; a request built
at offset > 0 carries exactly "bytes {offset}-{offset+n-1}/*" where n is its
body length (stated below the 2^64 wrap, which guint64 arithmetic imposes);
and when the would-be body length n is 0, nothing is submitted and the
queued chunks are released instead. -/
theorem content_range_headers :
    (∀ (s : SinkState) (r : Request),
        (send_message_locked s).submitted = s.submitted ++ [r] →
        0 < r.body.length ∧
          (s.offset = 0 → r.contentRange = none) ∧
          (0 < s.offset → s.offset + r.body.length ≤ 2 ^ 64 →
            r.contentRange =
              some ("bytes " ++ Nat.repr s.offset ++ "-" ++
                Nat.repr (s.offset + r.body.length - 1) ++ "/*")))
    ∧ (∀ s : SinkState, s.message = none → (requestBody s).length = 0 →
        (send_message_locked s).submitted = s.submitted ∧
          (send_message_locked s).queued_buffers = []) := by
  constructor
  · intro s r h
    rcases send_message_locked_spec s with ⟨he, _⟩ | ⟨he, _⟩ | ⟨_, hn, he⟩
    · rw [he] at h
      simp at h
    · rw [he] at h
      simp at h
    · rw [he] at h
      have hr : buildRequest s = r := by
        have h2 : [buildRequest s] = [r] := List.append_cancel_left h
        injection h2
      have hbody : r.body = requestBody s := by
        rw [← hr]
        rfl
      refine ⟨?_, ?_, ?_⟩
      · rw [hbody]
        exact hn
      · intro h0
        rw [← hr]
        unfold buildRequest
        simp [h0]
      · intro hpos hle
        have h0 : ¬ s.offset = 0 := Nat.pos_iff_ne_zero.mp hpos
        rw [← hr]
        unfold buildRequest
        rw [if_neg h0]
        unfold contentRangeStr
        have hlen : (requestBody s).length = r.body.length := by
          rw [hbody]
        rw [hlen]
        have hmod : (s.offset + r.body.length - 1) % 2 ^ 64 =
            s.offset + r.body.length - 1 := by
          apply Nat.mod_eq_of_lt
          omega
        rw [hmod]
  · intro s hm hn0
    rcases send_message_locked_spec s with ⟨he, hor⟩ | ⟨he, _⟩ | ⟨_, hn, _⟩
    · have hq : s.queued_buffers = [] := by
        rcases hor with hq | hmm
        · exact hq
        · exact absurd hm hmm
      rw [he]
      exact ⟨rfl, hq⟩
    · rw [he]
      exact ⟨rfl, rfl⟩
    · omega

/-- A latch-free state at offset 3 with one queued two-byte chunk: dispatch
submits a request carrying Content-Range "bytes 3-4/*". -/
def rangeDemoState : SinkState :=
  { location := some "u"
    streamheader_buffers := []
    queued_buffers := [⟨[4, 5], false⟩]
    sent_buffers := []
    message := none
    offset := 3
    status_code := 0
    reason_phrase := none
    pending := 0
    submitted := [] }

/-- A state at offset 3 whose only queued chunk is flagged
GST_BUFFER_FLAG_IN_CAPS, so the would-be body length is 0. -/
def zeroLenDemoState : SinkState :=
  { location := some "u"
    streamheader_buffers := []
    queued_buffers := [⟨[9], true⟩]
    sent_buffers := []
    message := none
    offset := 3
    status_code := 0
    reason_phrase := none
    pending := 0
    submitted := [] }

/-- Witness for C6: the request dispatched from rangeDemoState satisfies the
Content-Range contract, and dispatch from zeroLenDemoState submits nothing
and empties the queue. -/
theorem content_range_headers_witness :
    (0 < (buildRequest rangeDemoState).body.length ∧
      (rangeDemoState.offset = 0 →
        (buildRequest rangeDemoState).contentRange = none) ∧
      (0 < rangeDemoState.offset →
        rangeDemoState.offset + (buildRequest rangeDemoState).body.length ≤
          2 ^ 64 →
        (buildRequest rangeDemoState).contentRange =
          some ("bytes " ++ Nat.repr rangeDemoState.offset ++ "-" ++
            Nat.repr (rangeDemoState.offset +
              (buildRequest rangeDemoState).body.length - 1) ++ "/*"))) ∧
    ((send_message_locked zeroLenDemoState).submitted =
        zeroLenDemoState.submitted ∧
      (send_message_locked zeroLenDemoState).queued_buffers = []) :=
  ⟨content_range_headers.1 rangeDemoState (buildRequest rangeDemoState)
      (by decide),
    content_range_headers.2 zeroLenDemoState (by decide) (by decide)⟩

/-- Counterexample to claim C3: dispatch from dispatchDemoState (a state at
offset 0 with one 3-byte chunk queued) advances the offset from 0 to 3 at
submission time, while the request is still outstanding and before any
completion has run; the subsequent successful completion leaves the offset
unchanged.  So the offset is NOT advanced "only when a request completes
successfully". -/
theorem offset_advances_at_submit_cex :
    dispatchDemoState.offset = 0 ∧
      (send_message_locked dispatchDemoState).offset = 3 ∧
      (send_message_locked dispatchDemoState).message ≠ none ∧
      (callback 204 "No Content"
          (send_message_locked dispatchDemoState)).offset = 3 := by
  decide

/-- Claim C3 as amended: along every step of the interleaving machine, the
offset either stays unchanged, or a request is submitted in that step and
the offset advances by exactly that request's body length (modulo 2^64,
guint64 arithmetic) at submission time, or the step is a stop or a location
change and the offset is reset to 0.  In particular a completion that
submits nothing never changes the offset. -/
theorem offset_update_characterization (s : SinkState) (e : Event) :
    (step s e).offset = s.offset
    ∨ (∃ r : Request,
        (step s e).submitted = s.submitted ++ [r] ∧ 0 < r.body.length ∧
          (step s e).offset = (s.offset + r.body.length) % 2 ^ 64)
    ∨ ((step s e).offset = 0 ∧
        (e = Event.stop ∨ ∃ l, e = Event.setLocation l)) := by
  cases e with
  | push c =>
    left
    simp only [step, gst_soup_http_sink_render]
    split_ifs <;> rfl
  | runIdle =>
    by_cases hp : s.pending = 0
    · left
      simp [step, hp]
    · rcases send_message_locked_spec { s with pending := s.pending - 1 } with
        ⟨he, _⟩ | ⟨he, _⟩ | ⟨_, hn, he⟩
      · left
        simp only [step, if_neg hp, he]
      · left
        simp only [step, if_neg hp, he]
      · right; left
        refine ⟨buildRequest { s with pending := s.pending - 1 }, ?_, hn, ?_⟩
        · simp only [step, if_neg hp, he]
        · simp only [step, if_neg hp, he]
          rfl
  | complete st rsn =>
    by_cases hm0 : s.message = none
    · left
      simp [step, hm0]
    · simp only [step, if_neg hm0]
      unfold callback
      by_cases hst : statusIsSuccessful st = false
      · left
        rw [if_pos hst]
      · rw [if_neg hst]
        rcases send_message_locked_spec
            { s with message := none, sent_buffers := [] } with
          ⟨he, _⟩ | ⟨he, _⟩ | ⟨_, hn, he⟩
        · left
          rw [he]
        · left
          rw [he]
        · right; left
          refine ⟨buildRequest { s with message := none, sent_buffers := [] },
            ?_, hn, ?_⟩
          · rw [he]
          · rw [he]
            rfl
  | setCaps hs =>
    left
    rfl
  | setLocation l =>
    right; right
    exact ⟨rfl, Or.inr ⟨l, rfl⟩⟩
  | stop =>
    right; right
    exact ⟨rfl, Or.inl rfl⟩

/-- The event sequence used against claim C4: push a chunk, let the idle
source dispatch it, push a second chunk while the first request is in flight
(this attaches a second idle source), then fail the in-flight request. -/
def latchDemoEvents : List Event :=
  [Event.push ⟨[1, 2, 3], false⟩, Event.runIdle, Event.push ⟨[4, 5], false⟩,
    Event.complete 500 "e"]

/-- Counterexample to claim C4: after latchDemoEvents the error latch is set
(status 500) and an idle dispatch source attached before the failure is
still pending; letting that source run submits ANOTHER request to the
Transport — send_message_locked never consults the error latch, so a pending
scheduled dispatch can still fire after the latch is set. -/
theorem dispatch_after_latch_cex :
    (run (initState [] "u") latchDemoEvents).status_code = 500 ∧
      (run (initState [] "u") latchDemoEvents).pending ≠ 0 ∧
      (step (run (initState [] "u") latchDemoEvents)
          Event.runIdle).submitted.length =
        (run (initState [] "u") latchDemoEvents).submitted.length + 1 := by
  decide

/-- A state with the error latch set and nothing pending, used as a witness
input below. -/
def latchedDemoState : SinkState :=
  { location := some "u"
    streamheader_buffers := []
    queued_buffers := []
    sent_buffers := []
    message := none
    offset := 9
    status_code := 404
    reason_phrase := some "Not Found"
    pending := 0
    submitted := [] }

/-- Claim C4 as amended: once a failure latches, the failure completion path
itself submits nothing further, and every subsequent render call fails
without touching the state, so no chunk accepted after the failure can ever
reach the Transport; only a dispatch source scheduled BEFORE the failure can
still submit one request carrying chunks enqueued before the failure. -/
theorem latch_blocks_new_work :
    (∀ (s : SinkState) (st : Nat) (rsn : String),
        statusIsSuccessful st = false →
        (callback st rsn s).submitted = s.submitted)
    ∧ (∀ (s : SinkState) (b : Chunk), s.status_code ≠ 0 →
        (gst_soup_http_sink_render s b).flow = GstFlowReturn.error ∧
          (gst_soup_http_sink_render s b).state = s) := by
  constructor
  · intro s st rsn h
    unfold callback
    rw [if_pos h]
  · intro s b h
    unfold gst_soup_http_sink_render
    rw [if_pos h]
    exact ⟨rfl, rfl⟩

/-- Witness for C4 as amended: a failed completion of busyDemoState submits
nothing, and a render call on a latched state fails and leaves the state
unchanged. -/
theorem latch_blocks_new_work_witness :
    ((callback 502 "x" busyDemoState).submitted = busyDemoState.submitted) ∧
      ((gst_soup_http_sink_render latchedDemoState ⟨[1], false⟩).flow =
          GstFlowReturn.error ∧
        (gst_soup_http_sink_render latchedDemoState ⟨[1], false⟩).state =
          latchedDemoState) :=
  ⟨latch_blocks_new_work.1 busyDemoState 502 "x" (by decide),
    latch_blocks_new_work.2 latchedDemoState ⟨[1], false⟩ (by decide)⟩

/-- The invariant of a failure-free session segment with fixed header set H
and fixed location loc, where `log` is the list of chunks pushed so far: the
bytes already handed to the Transport plus the payload bytes still queued
are exactly the header bytes (present as soon as a first request has gone
out, i.e. as soon as the offset left 0) followed by the payload bytes of
everything pushed, in order; the offset equals the number of bytes handed to
the Transport; and nothing has been submitted while the offset is still 0. -/
def SessionInv (H : List Chunk) (loc : String) (log : List Chunk)
    (s : SinkState) : Prop :=
  s.location = some loc ∧
    s.streamheader_buffers = H ∧
    s.status_code = 0 ∧
    bodies s.submitted ++ payloadBytes s.queued_buffers =
      (if s.offset = 0 then ([] : List Nat) else bytesOf H) ++
        payloadBytes log ∧
    s.offset = (bodies s.submitted).length ∧
    (s.offset = 0 → s.submitted = [])

/-- The dispatcher preserves the session invariant (as long as fewer than
2^64 total bytes are involved, so the guint64 offset does not wrap). -/
lemma sessionInv_send (H : List Chunk) (loc : String) (log : List Chunk)
    (s : SinkState) (h : SessionInv H loc log s)
    (hb : (bytesOf H).length + (payloadBytes log).length < 2 ^ 64) :
    SessionInv H loc log (send_message_locked s) := by
  obtain ⟨h1, h2, h3, h4, h5, h6⟩ := h
  rcases send_message_locked_spec s with ⟨he, _⟩ | ⟨he, hor⟩ | ⟨hm, hn, he⟩
  · rw [he]
    exact ⟨h1, h2, h3, h4, h5, h6⟩
  · have hq0 : payloadBytes s.queued_buffers = [] := by
      rcases hor with hl | hlen
      · rw [h1] at hl
        simp at hl
      · unfold requestBody at hlen
        rw [List.length_append] at hlen
        have hz : (payloadBytes s.queued_buffers).length = 0 := by omega
        exact List.length_eq_zero.mp hz
    rw [he]
    refine ⟨h1, h2, h3, ?_, h5, h6⟩
    show bodies s.submitted ++ payloadBytes [] =
      (if s.offset = 0 then ([] : List Nat) else bytesOf H) ++
        payloadBytes log
    rw [payloadBytes_nil, List.append_nil]
    rw [hq0, List.append_nil] at h4
    exact h4
  · rw [he]
    by_cases ho : s.offset = 0
    · have hsub : s.submitted = [] := h6 ho
      have hbod : bodies s.submitted = [] := by
        rw [hsub]
        rfl
      have hq : payloadBytes s.queued_buffers = payloadBytes log := by
        rw [hbod, if_pos ho] at h4
        simpa using h4
      have hreq : requestBody s = bytesOf H ++ payloadBytes s.queued_buffers := by
        unfold requestBody
        rw [if_pos ho, h2]
      have hlen : (requestBody s).length =
          (bytesOf H).length + (payloadBytes log).length := by
        rw [hreq, List.length_append, hq]
      have hofs : (s.offset + (requestBody s).length) % 2 ^ 64 =
          (requestBody s).length := by
        rw [ho, Nat.zero_add]
        exact Nat.mod_eq_of_lt (by omega)
      have hne : (requestBody s).length ≠ 0 := Nat.pos_iff_ne_zero.mp hn
      refine ⟨h1, h2, h3, ?_, ?_, ?_⟩
      · show bodies (s.submitted ++ [buildRequest s]) ++ payloadBytes [] =
          (if (s.offset + (requestBody s).length) % 2 ^ 64 = 0 then
            ([] : List Nat) else bytesOf H) ++ payloadBytes log
        rw [payloadBytes_nil, List.append_nil, bodies_append,
          bodies_singleton, hbod, List.nil_append, hofs, if_neg hne]
        show requestBody s = bytesOf H ++ payloadBytes log
        rw [hreq, hq]
      · show (s.offset + (requestBody s).length) % 2 ^ 64 =
          (bodies (s.submitted ++ [buildRequest s])).length
        rw [hofs, bodies_append, bodies_singleton, hbod, List.nil_append]
        rfl
      · intro h0
        rw [hofs] at h0
        exact absurd h0 hne
    · have hreq : requestBody s = payloadBytes s.queued_buffers := by
        unfold requestBody
        rw [if_neg ho, List.nil_append]
      have h4q : bodies s.submitted ++ payloadBytes s.queued_buffers =
          bytesOf H ++ payloadBytes log := by
        rw [if_neg ho] at h4
        exact h4
      have hlen : (bodies s.submitted).length + (requestBody s).length =
          (bytesOf H).length + (payloadBytes log).length := by
        have hc := congrArg List.length h4q
        simpa [List.length_append, hreq] using hc
      have hofs : (s.offset + (requestBody s).length) % 2 ^ 64 =
          s.offset + (requestBody s).length := by
        apply Nat.mod_eq_of_lt
        rw [h5]
        omega
      have hne0 : s.offset + (requestBody s).length ≠ 0 := by
        omega
      refine ⟨h1, h2, h3, ?_, ?_, ?_⟩
      · show bodies (s.submitted ++ [buildRequest s]) ++ payloadBytes [] =
          (if (s.offset + (requestBody s).length) % 2 ^ 64 = 0 then
            ([] : List Nat) else bytesOf H) ++ payloadBytes log
        rw [payloadBytes_nil, List.append_nil, bodies_append,
          bodies_singleton, hofs, if_neg hne0]
        show bodies s.submitted ++ requestBody s = bytesOf H ++ payloadBytes log
        rw [hreq]
        exact h4q
      · show (s.offset + (requestBody s).length) % 2 ^ 64 =
          (bodies (s.submitted ++ [buildRequest s])).length
        rw [hofs, bodies_append, bodies_singleton, List.length_append, h5]
        rfl
      · intro h0
        rw [hofs] at h0
        exact absurd h0 hne0

/-- Every failure-free event preserves the session invariant, extending the
push log by whatever the event pushed. -/
lemma sessionInv_step (H : List Chunk) (loc : String) (log : List Chunk)
    (s : SinkState) (e : Event) (h : SessionInv H loc log s)
    (hg : goodEvent e = true)
    (hb : (bytesOf H).length +
        (payloadBytes (log ++ pushedOf [e])).length < 2 ^ 64) :
    SessionInv H loc (log ++ pushedOf [e]) (step s e) := by
  obtain ⟨h1, h2, h3, h4, h5, h6⟩ := h
  cases e with
  | push c =>
    simp only [step]
    have hst : (gst_soup_http_sink_render s c).state =
        { s with
          queued_buffers := s.queued_buffers ++ [c]
          pending :=
            if s.queued_buffers = [] then s.pending + 1 else s.pending } := by
      unfold gst_soup_http_sink_render
      rw [if_neg (by simp [h3]), if_neg (by simp [h1])]
    rw [hst]
    refine ⟨h1, h2, h3, ?_, h5, h6⟩
    show bodies s.submitted ++ payloadBytes (s.queued_buffers ++ [c]) =
      (if s.offset = 0 then ([] : List Nat) else bytesOf H) ++
        payloadBytes (log ++ pushedOf [Event.push c])
    have hp : pushedOf [Event.push c] = [c] := rfl
    rw [hp, payloadBytes_append s.queued_buffers [c],
      payloadBytes_append log [c], ← List.append_assoc, h4,
      List.append_assoc]
  | runIdle =>
    have hplog : pushedOf [Event.runIdle] = [] := rfl
    rw [hplog, List.append_nil] at hb ⊢
    simp only [step]
    by_cases hp : s.pending = 0
    · rw [if_pos hp]
      exact ⟨h1, h2, h3, h4, h5, h6⟩
    · rw [if_neg hp]
      exact sessionInv_send H loc log _ ⟨h1, h2, h3, h4, h5, h6⟩ hb
  | complete st rsn =>
    have hplog : pushedOf [Event.complete st rsn] = [] := rfl
    rw [hplog, List.append_nil] at hb ⊢
    simp only [step]
    by_cases hm : s.message = none
    · rw [if_pos hm]
      exact ⟨h1, h2, h3, h4, h5, h6⟩
    · rw [if_neg hm]
      have hsucc : statusIsSuccessful st = true := by
        simpa [goodEvent] using hg
      unfold callback
      rw [if_neg (by simp [hsucc])]
      exact sessionInv_send H loc log _ ⟨h1, h2, h3, h4, h5, h6⟩ hb
  | setCaps hs =>
    simp [goodEvent] at hg
  | setLocation l =>
    simp [goodEvent] at hg
  | stop =>
    simp [goodEvent] at hg

/-- Running any failure-free event sequence preserves the session
invariant. -/
lemma sessionInv_run (H : List Chunk) (loc : String) :
    ∀ (evs : List Event) (log : List Chunk) (s : SinkState),
      SessionInv H loc log s →
      (∀ e ∈ evs, goodEvent e = true) →
      (bytesOf H).length +
          (payloadBytes (log ++ pushedOf evs)).length < 2 ^ 64 →
      SessionInv H loc (log ++ pushedOf evs) (run s evs) := by
  intro evs
  induction evs with
  | nil =>
    intro log s h _ _
    simpa [run, pushedOf] using h
  | cons e rest ih =>
    intro log s h hg hb
    have hsplit : pushedOf (e :: rest) = pushedOf [e] ++ pushedOf rest := by
      cases e <;> rfl
    have hb1 : (bytesOf H).length +
        (payloadBytes (log ++ pushedOf [e])).length < 2 ^ 64 := by
      rw [hsplit, ← List.append_assoc, payloadBytes_append,
        List.length_append] at hb
      omega
    have hstep := sessionInv_step H loc log s e h (hg e (by simp)) hb1
    have hrest := ih (log ++ pushedOf [e]) (step s e) hstep
      (fun x hx => hg x (by simp [hx]))
      (by rw [List.append_assoc, ← hsplit]; exact hb)
    rw [List.append_assoc, ← hsplit] at hrest
    show SessionInv H loc (log ++ pushedOf (e :: rest)) (run s (e :: rest))
    have hrun : run s (e :: rest) = run (step s e) rest := rfl
    rw [hrun]
    exact hrest

/-- Claim C1: in every failure-free run from a fresh session (header set H,
location loc) consisting of pushes, idle dispatches and successful
completions, if the run drains the queue and at least one payload byte was
pushed, then the byte-for-byte concatenation of the bodies of all requests
handed to the Transport is exactly the Header Set bytes followed by the
pushed chunks' bytes in push order, with chunks flagged
GST_BUFFER_FLAG_IN_CAPS excluded — no gaps, no duplicates.  (The total byte
count is bounded by 2^64 so the guint64 offset cannot wrap.) -/
theorem bytes_delivered_in_order (H : List Chunk) (loc : String)
    (evs : List Event)
    (hg : ∀ e ∈ evs, goodEvent e = true)
    (hb : (bytesOf H).length + (payloadBytes (pushedOf evs)).length < 2 ^ 64)
    (hdrain : (run (initState H loc) evs).queued_buffers = [])
    (hne : payloadBytes (pushedOf evs) ≠ []) :
    bodies (run (initState H loc) evs).submitted =
      bytesOf H ++ payloadBytes (pushedOf evs) := by
  have h0 : SessionInv H loc [] (initState H loc) := by
    refine ⟨rfl, rfl, rfl, ?_, rfl, fun _ => rfl⟩
    show bodies [] ++ payloadBytes [] =
      (if (0 : Nat) = 0 then ([] : List Nat) else bytesOf H) ++
        payloadBytes []
    simp [bodies, payloadBytes_nil]
  have hinv := sessionInv_run H loc evs [] (initState H loc) h0 hg
    (by simpa using hb)
  rw [List.nil_append] at hinv
  obtain ⟨_, _, _, h4, _, h6⟩ := hinv
  rw [hdrain, payloadBytes_nil, List.append_nil] at h4
  by_cases ho : (run (initState H loc) evs).offset = 0
  · exfalso
    have hemp : payloadBytes (pushedOf evs) = [] := by
      rw [h6 ho, if_pos ho] at h4
      simpa [bodies] using h4.symm
    exact hne hemp
  · rw [if_neg ho] at h4
    exact h4

/-- The header set used in the C1 witness run. -/
def orderDemoHeaders : List Chunk := [⟨[7, 8], false⟩]

/-- The C1 witness run: push, dispatch and successfully complete a 3-byte
chunk, then push, dispatch and successfully complete a 2-byte chunk. -/
def orderDemoEvents : List Event :=
  [Event.push ⟨[1, 2, 3], false⟩, Event.runIdle, Event.complete 201 "Created",
    Event.push ⟨[4, 5], false⟩, Event.runIdle,
    Event.complete 204 "No Content"]

/-- Witness for C1: the concrete run delivers exactly header bytes [7, 8]
followed by payload bytes [1, 2, 3, 4, 5]. -/
theorem bytes_delivered_in_order_witness :
    bodies (run (initState orderDemoHeaders "u") orderDemoEvents).submitted =
      bytesOf orderDemoHeaders ++ payloadBytes (pushedOf orderDemoEvents) :=
  bytes_delivered_in_order orderDemoHeaders "u" orderDemoEvents (by decide)
    (by decide) (by decide) (by decide)
